import Mathlib

/-!
Verification development for the Bug-to-PR Autopilot workflow engine.

The definitions below are a shallow embedding of the run-management core of
the repository:

* src/backend/services/runs.py  (RunService: start, _run_plan, approve,
  stream, list_runs, describe)
* src/backend/main.py           (FastAPI boundary: approve_run,
  get_run_events.event_generator)

Modelling conventions, chosen to stay faithful to the Python source:

* The ten step names are fixed string literals in the source (the plan
  built by start and the step list of _run_plan).  They are modelled as
  the enumeration StepName; StepName.str recovers the source spelling.
  The approval endpoint receives an arbitrary gate string and the source
  checks it against the two gate spellings before using it as a dict
  key; the model keeps that raw String input and parses it to a StepName
  with exactly the same membership check.
* Python dicts used as keyed mappings (run records, approvals, the run
  directory, the per-run event queues) are association lists with
  Python's assignment semantics (update the binding in place if present,
  else append at the end).
* The per-run asyncio.Queue is the list of events published to it, in
  publish (FIFO) order.
* External collaborators (GitHub service, Portia service, repository
  analyzer, AI fix generator) are opaque side effects.  Only the facts the
  executor's control flow reads are modelled, as an Env record of outcome
  flags: whether a call raised, whether a result dict carried
  success=True, and how many files the generated AI fix contains.  The
  payload contents (titles, bodies, URLs, branch names, log-message text)
  never influence control flow or step/run statuses and are not modelled;
  a published log event is modelled as the payload-free Event.log, one
  per log put on the queue by the source.
* github_data presence flags model which keys of run["github_data"] hold
  a truthy value (branch, pr_url, issue_details, ai_fix, repo_analysis,
  portia_plan); pr_number and pr_title are always set together with
  pr_url and are folded into the prUrl flag.
* The executor runs as a single asyncio task per run; its observable
  states are the run record contents between await points.  The model
  records a snapshot of the run record into a trace after every mutation
  of the record, which over-approximates the set of observable states.
* The busy-wait loop at a gate (while step_name not in run["approvals"]:
  await asyncio.sleep(0.1)) is modelled by handing the executor the
  ApprovalInfo that RunService.approve eventually stores for that gate;
  the timing of that loop is modelled separately for the latency claim
  (gateResumeTimeMs below).
-/

/-- The ten step names appearing in runs.py (both in the plan built by
RunService.start and in the step list of _run_plan). -/
inductive StepName where
  | fetchIssueDetails
  | portiaAnalysis
  | analyzeRepository
  | createBranch
  | pushFailingTest
  | proposeFix
  | openPr
  | mergePr
  | postDeployCheck
  | finalize
deriving DecidableEq, Repr

/-- The source spelling of each step name. -/
def StepName.str : StepName → String
  | .fetchIssueDetails => "fetch-issue-details"
  | .portiaAnalysis => "portia-analysis"
  | .analyzeRepository => "analyze-repository"
  | .createBranch => "create-branch"
  | .pushFailingTest => "push-failing-test"
  | .proposeFix => "propose-fix"
  | .openPr => "open-pr"
  | .mergePr => "merge-pr"
  | .postDeployCheck => "post-deploy-check"
  | .finalize => "finalize"

/-- Step statuses as used in runs.py plan entries. -/
inductive StepStatus where
  | pending
  | running
  | waiting
  | success
  | failed
  | rejected
  | cancelled
deriving DecidableEq, Repr

/-- Run-level statuses as used in runs.py run records. -/
inductive RunStatus where
  | created
  | running
  | paused
  | completed
  | failed
deriving DecidableEq, Repr

/-- One entry of run["plan"]. -/
structure StepState where
  name : StepName
  status : StepStatus
deriving DecidableEq, Repr

/-- A decision recorded by RunService.approve into run["approvals"][gate]:
the raw decision string and the optional note. -/
structure ApprovalInfo where
  decision : String
  note : Option String
deriving DecidableEq, Repr

/-- Events published to a per-run queue, as built in runs.py and consumed in
main.py.  Log payload text is not modelled.  stateChanged carries its
status and, when update_step emitted it, the plan.  keepalive is produced
only by the SSE generator in main.py. -/
inductive Event where
  | stateChanged (status : RunStatus) (plan : Option (List StepState))
  | log
  | clarificationRequested (gate : StepName)
  | approvalRecorded (gate : StepName) (decision : String) (note : Option String)
  | clarificationResolved (gate : StepName) (decision : String) (note : Option String)
  | finished (status : RunStatus)
  | keepalive
deriving DecidableEq, Repr

/-- The type tag of an event (the "type" field of the published dict). -/
inductive EventType where
  | stateChanged
  | log
  | clarificationRequested
  | approvalRecorded
  | clarificationResolved
  | finished
  | keepalive
deriving DecidableEq, Repr

/-- Extract the "type" field of an event. -/
def Event.etype : Event → EventType
  | .stateChanged _ _ => .stateChanged
  | .log => .log
  | .clarificationRequested _ => .clarificationRequested
  | .approvalRecorded _ _ _ => .approvalRecorded
  | .clarificationResolved _ _ _ => .clarificationResolved
  | .finished _ => .finished
  | .keepalive => .keepalive

/-- Is this event a log event? -/
def Event.isLog : Event → Bool
  | .log => true
  | _ => false

/-- Is this event a finished event (evt.get("type") == "finished")? -/
def Event.isFinished : Event → Bool
  | .finished _ => true
  | _ => false

/-- Presence/truthiness flags for run["github_data"], which _run_plan
initialises before the step loop and mutates as steps execute. -/
structure GithubData where
  branch : Bool
  prUrl : Bool
  issueDetails : Bool
  aiFix : Bool
  repoAnalysis : Bool
  portiaPlan : Bool
deriving DecidableEq, Repr

/-- The mutable run record stored in RunService._runs.  startedAt is an
opaque timestamp and is not modelled; recordedEvents models run["events"]
(initialised to the empty list and never appended to anywhere in the
source). -/
structure Run where
  runId : String
  issueUrl : String
  repo : String
  status : RunStatus
  plan : List StepState
  approvals : List (StepName × ApprovalInfo)
  recordedEvents : List Event
  githubData : GithubData
deriving DecidableEq, Repr

/-- Python dict lookup d.get(k) on a keyed mapping. -/
def dictGet {kk aa : Type} [DecidableEq kk] : List (kk × aa) → kk → Option aa
  | [], _ => none
  | (k', v') :: rest, k => if k' = k then some v' else dictGet rest k

/-- Python dict assignment d[k] = v: replace the binding in place if the
key is present, otherwise append it. -/
def dictSet {kk aa : Type} [DecidableEq kk] : List (kk × aa) → kk → aa → List (kk × aa)
  | [], k, v => [(k, v)]
  | (k', v') :: rest, k, v =>
      if k' = k then (k, v) :: rest else (k', v') :: dictSet rest k v

/-- Outcome flags of the external collaborator calls made by _run_plan.
Each field states what the (opaque) collaborator did on this run. -/
structure Env where
  /-- github_service.get_issue_details in the fetch-issue-details step
  returned (did not raise); the returned dict, truthy either way, is then
  stored under github_data["issue_details"]. -/
  fetchIssueOk : Bool
  /-- portia_service.create_portia_plan raised an exception. -/
  portiaRaises : Bool
  /-- the returned portia plan dict has status == "processing". -/
  portiaProcessing : Bool
  /-- repo_analyzer.analyze_repository returned (did not raise). -/
  analyzeOk : Bool
  /-- github_service.create_branch returned a dict with success=True. -/
  branchOk : Bool
  /-- github_service.get_issue_details called inside the propose-fix
  approval branch returned a dict with success=True. -/
  gateFetchOk : Bool
  /-- number of files in the AI fix (ai_fix["files"]); one log event is
  published per file both when proposing and when creating them. -/
  aiFixFiles : Nat
  /-- github_service.create_pull_request returned success=True. -/
  prOk : Bool
  /-- github_service.create_issue_comment in finalize returned
  success=True. -/
  commentOk : Bool
deriving DecidableEq, Repr

/-- State threaded through the executor: the run record, the full
sequence of events published to the per-run queue, and the trace of run
record snapshots taken after every mutation (the observable states). -/
structure ExecState where
  run : Run
  events : List Event
  trace : List Run
deriving Repr

/-- Publish one event to the per-run queue (await q.put(event)). -/
def emitEvent (e : Event) (s : ExecState) : ExecState :=
  { s with events := s.events ++ [e] }

/-- Publish a batch of (log) events. -/
def emitEvents (es : List Event) (s : ExecState) : ExecState :=
  { s with events := s.events ++ es }

/-- n log events; the message text is not modelled. -/
def logs (n : Nat) : List Event :=
  List.replicate n Event.log

/-- Record the current run record as an observable state. -/
def snap (s : ExecState) : ExecState :=
  { s with trace := s.trace ++ [s.run] }

/-- update_step's plan mutation: set the status of the first step with
this name and stop (the for/break loop in _run_plan.update_step). -/
def updatePlan (name : StepName) (st : StepStatus) : List StepState → List StepState
  | [] => []
  | ss :: rest =>
      if ss.name = name then { ss with status := st } :: rest
      else ss :: updatePlan name st rest

/-- The update_step helper of _run_plan: mutate the plan entry, then
publish a stateChanged event carrying the plan and the current run
status. -/
def updStep (name : StepName) (st : StepStatus) (s : ExecState) : ExecState :=
  let r' := { s.run with plan := updatePlan name st s.run.plan }
  snap (emitEvent (.stateChanged r'.status (some r'.plan)) { s with run := r' })

/-- cancel loop of the reject branch: every step strictly after the named
step whose status is pending becomes cancelled (seen is set only after
the cancellation check of the current entry, so the gate itself is not
cancelled). -/
def cancelLoop (name : StepName) (seen : Bool) : List StepState → List StepState
  | [] => []
  | ss :: rest =>
      let ss' := if seen && decide (ss.status = .pending) then { ss with status := .cancelled } else ss
      ss' :: cancelLoop name (seen || decide (ss.name = name)) rest

/-- Mark all pending steps after the named step cancelled. -/
def cancelAfter (name : StepName) (plan : List StepState) : List StepState :=
  cancelLoop name false plan

/-- The gate-specific logic executed inside the propose-fix approve
branch: log, re-fetch the issue details, and if that fetch reports
success store them together with the generated AI fix (one log for the
proposal plus one log per file), else log the failure. -/
def proposeFixApprove (env : Env) (s0 : ExecState) : ExecState :=
  let s1 := emitEvents (logs 1) s0
  let gd' := { s1.run.githubData with
    issueDetails := if env.gateFetchOk then true else s1.run.githubData.issueDetails,
    aiFix := if env.gateFetchOk then true else s1.run.githubData.aiFix }
  let s2 := { s1 with run := { s1.run with githubData := gd' } }
  emitEvents (logs (if env.gateFetchOk then 1 + env.aiFixFiles else 1)) s2

/-- One ordinary (non-gated) step of _run_plan, entered after the step
was set running.  Every branch of the source elif ladder is translated;
log-only differences between the success and the failure branch of the
same collaborator call are a single log event since the message payload
is not modelled. -/
def execOrdinary (env : Env) (name : StepName) (s0 : ExecState) : ExecState :=
  match name with
  | .fetchIssueDetails =>
    -- log, try fetch (stored unconditionally when the call returns), log
    let s1 := emitEvents (logs 1) s0
    let gd' := { s1.run.githubData with issueDetails :=
      if env.fetchIssueOk then true else s1.run.githubData.issueDetails }
    let s2 := { s1 with run := { s1.run with githubData := gd' } }
    updStep name .success (emitEvents (logs 1) s2)
  | .portiaAnalysis =>
    -- log, try create plan (stored on return); the processing branch logs
    -- twice, the completed branch once, the except branch once
    let s1 := emitEvents (logs 1) s0
    let gd' := { s1.run.githubData with portiaPlan :=
      if env.portiaRaises then s1.run.githubData.portiaPlan else true }
    let s2 := { s1 with run := { s1.run with githubData := gd' } }
    updStep name .success
      (emitEvents (logs (if env.portiaRaises then 1 else if env.portiaProcessing then 2 else 1)) s2)
  | .analyzeRepository =>
    let s1 := emitEvents (logs 1) s0
    let gd' := { s1.run.githubData with repoAnalysis :=
      if env.analyzeOk then true else s1.run.githubData.repoAnalysis }
    let s2 := { s1 with run := { s1.run with githubData := gd' } }
    updStep name .success (emitEvents (logs 1) s2)
  | .createBranch =>
    -- branch stored only on success; one log either way
    let gd' := { s0.run.githubData with branch :=
      if env.branchOk then true else s0.run.githubData.branch }
    let s1 := { s0 with run := { s0.run with githubData := gd' } }
    updStep name .success (emitEvents (logs 1) s1)
  | .pushFailingTest =>
    updStep name .success (emitEvents (logs 1) s0)
  | .openPr =>
    -- source: if not ai_fix or not issue_details: log, step failed,
    -- continue; else create the files (a log per file), create the PR
    -- (stored on success), log, step success
    let s1 := emitEvents (logs 1) s0
    if s1.run.githubData.aiFix && s1.run.githubData.issueDetails then
      let s2 := emitEvents (logs env.aiFixFiles) s1
      let gd' := { s2.run.githubData with prUrl :=
        if env.prOk then true else s2.run.githubData.prUrl }
      let s3 := { s2 with run := { s2.run with githubData := gd' } }
      updStep name .success (emitEvents (logs 1) s3)
    else
      updStep name .failed (emitEvents (logs 1) s1)
  | .postDeployCheck =>
    updStep name .success (emitEvents (logs 2) s0)
  | .finalize =>
    -- comment on the issue only when pr_url and issue_details are set;
    -- a log only when the comment call reports success
    let s1 := emitEvents
      (logs (if s0.run.githubData.prUrl && s0.run.githubData.issueDetails then
               (if env.commentOk then 1 else 0) else 0)) s0
    updStep name .success s1
  | .proposeFix | .mergePr =>
    -- gates never reach execOrdinary (the source has a dead
    -- "elif step_name == propose-fix: pass" arm under the non-gate path)
    updStep name .success s0

/-- The gated-step handling of _run_plan, entered after the step was set
running: set it waiting, publish clarificationRequested, pause the run,
wait for the decision (the busy wait ends once approve() has stored it),
publish clarificationResolved, then either resume on approve (running
the propose-fix gate action) or reject: step rejected, run failed,
subsequent pending steps cancelled, stateChanged and finished published,
and the coroutine returns (the Bool result is the early return). -/
def execGate (env : Env) (info : ApprovalInfo) (name : StepName) (s1 : ExecState) :
    ExecState × Bool :=
  let s2 := updStep name .waiting s1
  let s3 := emitEvent (.clarificationRequested name) s2
  let s4 := emitEvent (.stateChanged .paused none)
    (snap { s3 with run := { s3.run with status := .paused } })
  let ap' := dictSet s4.run.approvals name info
  let s5 := snap { s4 with run := { s4.run with approvals := ap' } }
  let s6 := emitEvent (.clarificationResolved name info.decision info.note) s5
  if info.decision = "approve" then
    let s7 := emitEvent (.stateChanged .running none)
      (snap { s6 with run := { s6.run with status := .running } })
    let s8 := if name = .proposeFix then proposeFixApprove env s7 else s7
    (updStep name .success s8, false)
  else
    let s7 := updStep name .rejected s6
    let s8 := snap { s7 with run := { s7.run with status := .failed } }
    let s9 := snap { s8 with run := { s8.run with plan := cancelAfter name s8.run.plan } }
    let s10 := emitEvent (.stateChanged .failed (some s9.run.plan)) s9
    (emitEvent (.finished .failed) s10, true)

/-- The step loop of RunService._run_plan over the (name, is_gate) list.
Returns the final state and whether the coroutine returned early (the
reject branch); breaking out because the run status is already terminal
falls through to the epilogue instead.  For a gate the recorded decision
is the ApprovalInfo the wait loop eventually reads from
run["approvals"]. -/
def processSteps (env : Env) (dp dm : ApprovalInfo) :
    List (StepName × Bool) → ExecState → ExecState × Bool
  | [], s => (s, false)
  | (name, isGate) :: rest, s =>
    if s.run.status = RunStatus.failed ∨ s.run.status = RunStatus.completed then
      (s, false)
    else
      match isGate with
      | true =>
        match execGate env (if name = .proposeFix then dp else dm) name (updStep name .running s) with
        | (s', true) => (s', true)
        | (s', false) => processSteps env dp dm rest s'
      | false =>
        processSteps env dp dm rest (execOrdinary env name (updStep name .running s))

/-- The plan created by RunService.start: ten pending steps. -/
def initPlan : List StepState :=
  [⟨.fetchIssueDetails, .pending⟩,
   ⟨.portiaAnalysis, .pending⟩,
   ⟨.analyzeRepository, .pending⟩,
   ⟨.createBranch, .pending⟩,
   ⟨.pushFailingTest, .pending⟩,
   ⟨.proposeFix, .pending⟩,
   ⟨.openPr, .pending⟩,
   ⟨.mergePr, .pending⟩,
   ⟨.postDeployCheck, .pending⟩,
   ⟨.finalize, .pending⟩]

/-- Empty github_data (the record _run_plan installs before the loop).
The Run structure carries the field from creation; the source adds the
key inside _run_plan. -/
def initGithubData : GithubData :=
  ⟨false, false, false, false, false, false⟩

/-- The run record created by RunService.start. -/
def initRun (runId issueUrl repo : String) : Run :=
  { runId := runId
    issueUrl := issueUrl
    repo := repo
    status := .created
    plan := initPlan
    approvals := []
    recordedEvents := []
    githubData := initGithubData }

/-- The (step name, is approval gate) sequence of _run_plan. -/
def stepsGates : List (StepName × Bool) :=
  [(.fetchIssueDetails, false),
   (.portiaAnalysis, false),
   (.analyzeRepository, false),
   (.createBranch, false),
   (.pushFailingTest, false),
   (.proposeFix, true),
   (.openPr, false),
   (.mergePr, true),
   (.postDeployCheck, false),
   (.finalize, false)]

/-- State right after RunService.start: the run record exists (and is
observable through GET /runs), and the initial stateChanged(created)
event has been put on the fresh queue. -/
def startState (runId issueUrl repo : String) : ExecState :=
  let r := initRun runId issueUrl repo
  { run := r, events := [Event.stateChanged .created none], trace := [r] }

/-- RunService._run_plan for a freshly started run: set the run running,
install github_data, walk the steps, and unless the loop returned early
(gate rejection) finish the run as completed.  dp and dm are the
decisions recorded for the propose-fix and merge-pr gates; a gate's
decision is only consulted if the executor reaches that gate. -/
def RunService.run_plan (env : Env) (runId issueUrl repo : String)
    (dp dm : ApprovalInfo) : ExecState :=
  let s0 := startState runId issueUrl repo
  let s1 := emitEvent (.stateChanged .running none)
    (snap { s0 with run := { s0.run with status := .running } })
  let s2 := snap { s1 with run := { s1.run with githubData := initGithubData } }
  match processSteps env dp dm stepsGates s2 with
  | (s3, true) => s3
  | (s3, false) =>
    if s3.run.status = RunStatus.failed then s3
    else
      let s4 := emitEvent (.stateChanged .completed none)
        (snap { s3 with run := { s3.run with status := .completed } })
      let s5 := updStep .finalize .success s4
      emitEvent (.finished .completed) s5

/-- Python exceptions raised by RunService.approve. -/
inductive PyErr where
  | keyError (msg : String)
  | valueError (msg : String)
deriving DecidableEq, Repr

/-- The in-memory state owned by the RunService instance: the _runs dict
and the _event_queues dict (each queue modelled as the list of events
put on it, in publish order).  The _tasks dict holds opaque task handles
and is not modelled. -/
structure Directory where
  runs : List (String × Run)
  queues : List (String × List Event)
deriving DecidableEq, Repr

/-- The membership check of RunService.approve: gate must be one of the
two approval-gate spellings; on success the matching plan step name is
the dict key under which the decision is stored. -/
def parseGate (gate : String) : Option StepName :=
  if gate = "propose-fix" then some .proposeFix
  else if gate = "merge-pr" then some .mergePr
  else none

/-- RunService.approve translated from runs.py: raise KeyError for an
unknown run, ValueError for a gate name outside the two approval gates
or a decision outside approve/reject (each raise happens before any
mutation, so an error leaves the state unchanged), otherwise store the
decision under run["approvals"][gate] and put an approvalRecorded event
on the run's queue when that queue exists.  The gate's current plan-step
status is never consulted. -/
def RunService.approve (d : Directory) (runId gate decision : String)
    (note : Option String) : Directory × Option PyErr :=
  match dictGet d.runs runId with
  | none => (d, some (.keyError ("run " ++ runId ++ " not found")))
  | some run =>
    match parseGate gate with
    | none => (d, some (.valueError ("Unknown gate: " ++ gate)))
    | some g =>
      if ¬(decision = "approve" ∨ decision = "reject") then
        (d, some (.valueError ("Unknown decision: " ++ decision)))
      else
        let run' := { run with approvals := dictSet run.approvals g ⟨decision, note⟩ }
        let d' : Directory := { d with runs := dictSet d.runs runId run' }
        match dictGet d'.queues runId with
        | some evs =>
            ({ d' with queues := dictSet d'.queues runId (evs ++ [.approvalRecorded g decision note]) }, none)
        | none => (d', none)

/-- Results of the POST /runs/run_id/approve endpoint of main.py: the
success payload, a raised HTTPException with its status code, or an
exception escaping the handler uncaught (FastAPI turns those into a 500
response, not a client-error response). -/
inductive ApiResult where
  | ok (payload : String)
  | httpError (status : Nat) (detail : String)
  | uncaughtValueError (msg : String)
  | uncaughtKeyError (msg : String)
deriving DecidableEq, Repr

/-- Does this result carry an HTTP 400 (the 400-equivalent client error
raised via HTTPException)? -/
def ApiResult.isBadRequest : ApiResult → Bool
  | .httpError s _ => s == 400
  | _ => false

/-- approve_run from main.py: read gate/decision/note from the body
(note defaults to the empty string), 400 when gate or decision is
missing, 404 when the run is unknown, then delegate to
RunService.approve; an exception raised there propagates out of the
handler. -/
def Main.approve_run (d : Directory) (runId : String)
    (gate decision note : Option String) : Directory × ApiResult :=
  match gate, decision with
  | none, _ => (d, .httpError 400 "gate and decision are required")
  | _, none => (d, .httpError 400 "gate and decision are required")
  | some g, some dec =>
    match dictGet d.runs runId with
    | none => (d, .httpError 404 "Run not found")
    | some _ =>
      match RunService.approve d runId g dec (some (note.getD "")) with
      | (d', none) => (d', .ok "success")
      | (_, some (.keyError m)) => (d, .uncaughtKeyError m)
      | (_, some (.valueError m)) => (d, .uncaughtValueError m)

/-- RunService.stream: repeatedly take an event from the run's queue and
yield it, breaking after yielding an event whose type is finished.  The
input is the sequence of events published to the queue in publish
order; blocking on an empty queue is not modelled. -/
def RunService.stream : List Event → List Event
  | [] => []
  | e :: rest => if e.isFinished then [e] else e :: RunService.stream rest

/-- event_generator from main.py's get_run_events: an endless loop that
awaits the queue with a 30-second timeout, yielding the event when one
arrives and a keepalive on timeout.  A tick is one loop iteration: some
event when q.get() delivered within the window, none when the 30-second
wait timed out.  There is no break: the loop does not stop after a
finished event. -/
def Main.event_generator : List (Option Event) → List Event
  | [] => []
  | some e :: rest => e :: Main.event_generator rest
  | none :: rest => Event.keepalive :: Main.event_generator rest

/-- The gate wait of _run_plan is the loop
while step_name not in run["approvals"]: await asyncio.sleep(0.1)
so the executor tests for the decision at times 0 ms, 100 ms, 200 ms, ...
after suspending. -/
def pollIntervalMs : Nat := 100

/-- Modelled from the wait loop above: when the decision is stored
arrivalMs milliseconds after the executor suspended at the gate, the
executor observes it at the first poll tick at or after that instant
(scheduler latency idealised to zero, which is the most favourable case
for the polling loop). -/
def gateResumeTimeMs (arrivalMs : Nat) : Nat :=
  pollIntervalMs * ((arrivalMs + pollIntervalMs - 1) / pollIntervalMs)

/-- Status of the named step in a run record. -/
def stepStatusIn (r : Run) (name : StepName) : Option StepStatus :=
  (r.plan.find? (fun ss => ss.name == name)).map (fun ss => ss.status)

/-- Number of plan steps whose status is running or waiting. -/
def activeCount (plan : List StepState) : Nat :=
  plan.countP (fun ss => decide (ss.status = .running ∨ ss.status = .waiting))

/-- Is every step status terminal (success, failed, rejected or
cancelled)? -/
def allTerminal (plan : List StepState) : Bool :=
  plan.all (fun ss => decide (ss.status = .success ∨ ss.status = .failed ∨
    ss.status = .rejected ∨ ss.status = .cancelled))

/-- The published event sequence with log events removed and payloads
projected to the type tag. -/
def pubTrace (s : ExecState) : List EventType :=
  (s.events.filter (fun e => !e.isLog)).map Event.etype

/-! ### Projection lemmas for the executor state operations -/

@[simp] theorem run_emitEvent (e : Event) (s : ExecState) : (emitEvent e s).run = s.run := rfl

@[simp] theorem run_emitEvents (es : List Event) (s : ExecState) : (emitEvents es s).run = s.run := rfl

@[simp] theorem run_snap (s : ExecState) : (snap s).run = s.run := rfl

@[simp] theorem trace_emitEvent (e : Event) (s : ExecState) : (emitEvent e s).trace = s.trace := rfl

@[simp] theorem trace_emitEvents (es : List Event) (s : ExecState) : (emitEvents es s).trace = s.trace := rfl

@[simp] theorem trace_snap (s : ExecState) : (snap s).trace = s.trace ++ [s.run] := rfl

@[simp] theorem events_emitEvent (e : Event) (s : ExecState) : (emitEvent e s).events = s.events ++ [e] := rfl

@[simp] theorem events_emitEvents (es : List Event) (s : ExecState) : (emitEvents es s).events = s.events ++ es := rfl

@[simp] theorem events_snap (s : ExecState) : (snap s).events = s.events := rfl

@[simp] theorem run_updStep (n : StepName) (st : StepStatus) (s : ExecState) :
    (updStep n st s).run = { s.run with plan := updatePlan n st s.run.plan } := rfl

@[simp] theorem events_updStep (n : StepName) (st : StepStatus) (s : ExecState) :
    (updStep n st s).events
      = s.events ++ [.stateChanged s.run.status (some (updatePlan n st s.run.plan))] := rfl

@[simp] theorem trace_updStep (n : StepName) (st : StepStatus) (s : ExecState) :
    (updStep n st s).trace
      = s.trace ++ [{ s.run with plan := updatePlan n st s.run.plan }] := rfl

/-- Log events are dropped by the non-log projection, whatever their
number. -/
@[simp] theorem filter_nonlog_replicate (n : Nat) :
    (List.replicate n Event.log).filter (fun e => !e.isLog) = [] := by
  induction n with
  | zero => rfl
  | succ k ih => simp [List.replicate_succ, Event.isLog, ih]

/-! ### Dictionary lemmas -/

theorem dictGet_dictSet_self {kk aa : Type} [DecidableEq kk]
    (d : List (kk × aa)) (k : kk) (v : aa) :
    dictGet (dictSet d k v) k = some v := by
  induction d with
  | nil => simp [dictSet, dictGet]
  | cons p rest ih =>
    obtain ⟨a, b⟩ := p
    by_cases h : a = k
    · simp [dictSet, dictGet, h]
    · simp [dictSet, dictGet, h, ih]

theorem dictGet_dictSet_ne {kk aa : Type} [DecidableEq kk]
    (d : List (kk × aa)) (k k' : kk) (v : aa) (h : k ≠ k') :
    dictGet (dictSet d k v) k' = dictGet d k' := by
  induction d with
  | nil => simp [dictSet, dictGet, h]
  | cons p rest ih =>
    obtain ⟨a, b⟩ := p
    by_cases hak : a = k
    · subst hak
      simp [dictSet, dictGet, h]
    · simp [dictSet, dictGet, hak, ih]

/-! ### Concrete fixtures used by counterexamples and witnesses -/

/-- An environment in which every collaborator call succeeds (the portia
plan completes synchronously and the AI fix contains two files). -/
def envAllOk : Env := ⟨true, false, false, true, true, true, 2, true, true⟩

/-- A freshly created run record, as left by RunService.start. -/
def runA : Run := initRun "r1" "https://github.com/o/r/issues/1" "o/r"

/-- A directory holding the single fresh run r1 and its queue (carrying
the initial stateChanged(created) event). -/
def d0 : Directory :=
  { runs := [("r1", runA)], queues := [("r1", [Event.stateChanged .created none])] }

/-! ### Claim theorems -/

/-- C2: for every run in which each of the two gated steps receives an
approve decision and every step action succeeds (every collaborator
call returns success, whatever the portia completion mode, the number
of AI-fix files, and the notes attached to the decisions), the final
run status is completed and the final status of every step in the plan
is success. -/
theorem c2_all_approve_completes (pp : Bool) (files : Nat)
    (runId issueUrl repo : String) (n1 n2 : Option String) :
    (RunService.run_plan ⟨true, false, pp, true, true, true, files, true, true⟩
        runId issueUrl repo ⟨"approve", n1⟩ ⟨"approve", n2⟩).run.status = .completed ∧
    ((RunService.run_plan ⟨true, false, pp, true, true, true, files, true, true⟩
        runId issueUrl repo ⟨"approve", n1⟩ ⟨"approve", n2⟩).run.plan.all
      (fun ss => decide (ss.status = .success))) = true := by
  constructor <;>
  simp [RunService.run_plan, startState, processSteps, execOrdinary, execGate,
    proposeFixApprove, initRun, initPlan, stepsGates, initGithubData, updatePlan,
    cancelAfter, cancelLoop]

/-- C4 counterexample: with both gates approved, when the create-branch
action fails (returns no success) the run violates the claim "a failed
ordinary action makes the step failed, the run failed, the rest
cancelled and stops execution": the create-branch step still becomes
success, no step is ever cancelled, the open-pr step still runs later,
and the run completes. -/
theorem c4_counterexample :
    stepStatusIn (RunService.run_plan ⟨true, false, false, true, false, true, 2, true, true⟩
        "r1" "u" "p" ⟨"approve", none⟩ ⟨"approve", none⟩).run .createBranch = some .success ∧
    (RunService.run_plan ⟨true, false, false, true, false, true, 2, true, true⟩
        "r1" "u" "p" ⟨"approve", none⟩ ⟨"approve", none⟩).run.status = .completed ∧
    ((RunService.run_plan ⟨true, false, false, true, false, true, 2, true, true⟩
        "r1" "u" "p" ⟨"approve", none⟩ ⟨"approve", none⟩).run.plan.all
      (fun ss => decide (ss.status ≠ .cancelled ∧ ss.status ≠ .failed))) = true ∧
    ((RunService.run_plan ⟨true, false, false, true, false, true, 2, true, true⟩
        "r1" "u" "p" ⟨"approve", none⟩ ⟨"approve", none⟩).trace.any
      (fun r => decide (stepStatusIn r .openPr = some .running))) = true := by
  refine ⟨rfl, rfl, rfl, ?_⟩
  decide

/-- C4 as amended: an ordinary step's action failure is never terminal
for the run.  For every environment — that is, for every combination of
collaborator failures: the issue fetch raising, the portia analysis
raising or running in either mode, the repository analysis raising,
branch creation failing, the gate-time issue re-fetch failing, PR
creation failing, the finalize comment failing, and any number of
AI-fix files — a run whose two gates are approved still completes,
every step other than open-pr ends success (failures are only logged),
no step is ever cancelled, and open-pr is the one step that can end
failed: it does so exactly when the gate-time issue fetch failed (so no
AI fix was stored), and even then the later steps still execute and end
success, as witnessed by the run completing with them successful. -/
theorem c4_failed_actions_do_not_fail_run (env : Env)
    (runId issueUrl repo : String) (n1 n2 : Option String) :
    (RunService.run_plan env runId issueUrl repo ⟨"approve", n1⟩ ⟨"approve", n2⟩).run.status
      = .completed ∧
    ((RunService.run_plan env runId issueUrl repo ⟨"approve", n1⟩ ⟨"approve", n2⟩).run.plan.all
      (fun ss => decide (ss.name = .openPr ∨ ss.status = .success))) = true ∧
    stepStatusIn
        (RunService.run_plan env runId issueUrl repo ⟨"approve", n1⟩ ⟨"approve", n2⟩).run
        .openPr
      = some (if env.gateFetchOk then .success else .failed) ∧
    ((RunService.run_plan env runId issueUrl repo ⟨"approve", n1⟩ ⟨"approve", n2⟩).run.plan.all
      (fun ss => decide (ss.status ≠ .cancelled))) = true := by
  rcases env with ⟨f, pr, pp, an, br, gf, files, prk, cm⟩
  cases gf <;>
    simp [RunService.run_plan, startState, processSteps, execOrdinary, execGate,
      proposeFixApprove, initRun, initPlan, stepsGates, initGithubData, updatePlan,
      cancelAfter, cancelLoop, stepStatusIn]

/-- C7 counterexample: the gate wait is the polling loop
while step_name not in run["approvals"]: await asyncio.sleep(0.1), so a
decision arriving 1 ms after suspension is observed only at the 100 ms
poll tick, not the instant it is recorded as the claim states. -/
theorem c7_counterexample :
    gateResumeTimeMs 1 = 100 ∧ ¬(gateResumeTimeMs 1 = 1) := by
  decide

/-- C7 as amended: the executor's wait on a gate is a fixed-interval
polling loop (asyncio.sleep(0.1) between membership tests of
run["approvals"]), not a blocking suspension on a per-gate
synchronization primitive: the executor resumes at the first multiple
of the 100 ms poll interval at or after the decision is recorded, so
gate-resolution latency is bounded by the polling interval (and only by
it), never exceeding it. -/
theorem c7_polling_latency (arrivalMs : Nat) :
    arrivalMs ≤ gateResumeTimeMs arrivalMs ∧
    gateResumeTimeMs arrivalMs < arrivalMs + pollIntervalMs ∧
    gateResumeTimeMs arrivalMs % pollIntervalMs = 0 := by
  simp only [gateResumeTimeMs, pollIntervalMs]
  omega

/-- C9 counterexample: the SSE stream served by main.py (the only
subscription that produces keepalive events) does not end after the
finished event is delivered: the generator has no break, so a
subsequent idle window still yields a keepalive after finished. -/
theorem c9_counterexample :
    Main.event_generator [some (.finished .completed), none]
      = [.finished .completed, .keepalive] ∧
    ¬(Main.event_generator [some (.finished .completed), none]
      = [.finished .completed]) := by
  decide

/-- C9 as amended: RunService.stream delivers the published events in
publish order and terminates right after delivering the first finished
event, but emits no keepalives; the SSE generator of main.py delivers
each arriving event in order and a keepalive for each 30-second idle
window, but never terminates after finished. -/
theorem c9_stream_behaviour :
    (∀ (pre : List Event) (st : RunStatus) (post : List Event),
      (pre.all (fun e => !e.isFinished)) = true →
      RunService.stream (pre ++ Event.finished st :: post) = pre ++ [Event.finished st]) ∧
    (∀ ticks : List (Option Event),
      Main.event_generator ticks = ticks.map (fun o => o.getD Event.keepalive)) := by
  constructor
  · intro pre st post hpre
    induction pre with
    | nil => simp [RunService.stream, Event.isFinished]
    | cons e rest ih =>
      simp only [List.all_cons, Bool.and_eq_true] at hpre
      obtain ⟨he, hrest⟩ := hpre
      simp only [List.cons_append, RunService.stream]
      rw [if_neg (by simp_all)]
      simp [ih hrest]
  · intro ticks
    induction ticks with
    | nil => rfl
    | cons t rest ih =>
      cases t <;> simp [Main.event_generator, ih]

/-- C9 witness: the stream of a queue carrying one ordinary event, the
finished event and one late event ends right after finished. -/
theorem c9_stream_behaviour_witness :
    ([Event.stateChanged .running none].all (fun e => !e.isFinished)) = true ∧
    RunService.stream
        ([Event.stateChanged .running none] ++ Event.finished .completed :: [Event.keepalive])
      = [Event.stateChanged .running none] ++ [Event.finished .completed] :=
  ⟨by decide, c9_stream_behaviour.1 [Event.stateChanged .running none] .completed
    [Event.keepalive] (by decide)⟩

set_option maxHeartbeats 3000000 in
/-- C1: a reject decision recorded for a gated step while the run is
suspended there makes that step rejected and the run failed, turns every
later pending step cancelled, lets no later step ever reach running in
any observable state, and publishes clarificationResolved followed (after
the stateChanged updates) by the terminal finished event, after which
nothing more is published and no further step executes.  Both gates are
covered: rejection at propose-fix (first conjunct, where open-pr,
merge-pr, post-deploy-check and finalize were all still pending) and
rejection at merge-pr after propose-fix was approved (second conjunct,
where post-deploy-check and finalize were still pending).  The event
sequences are stated over the non-log published events. -/
theorem c1_reject_gate :
    (∀ (env : Env) (runId issueUrl repo : String) (n : Option String) (dm : ApprovalInfo),
      stepStatusIn (RunService.run_plan env runId issueUrl repo ⟨"reject", n⟩ dm).run
        .proposeFix = some .rejected ∧
      (RunService.run_plan env runId issueUrl repo ⟨"reject", n⟩ dm).run.status = .failed ∧
      stepStatusIn (RunService.run_plan env runId issueUrl repo ⟨"reject", n⟩ dm).run
        .openPr = some .cancelled ∧
      stepStatusIn (RunService.run_plan env runId issueUrl repo ⟨"reject", n⟩ dm).run
        .mergePr = some .cancelled ∧
      stepStatusIn (RunService.run_plan env runId issueUrl repo ⟨"reject", n⟩ dm).run
        .postDeployCheck = some .cancelled ∧
      stepStatusIn (RunService.run_plan env runId issueUrl repo ⟨"reject", n⟩ dm).run
        .finalize = some .cancelled ∧
      (∀ r ∈ (RunService.run_plan env runId issueUrl repo ⟨"reject", n⟩ dm).trace,
        stepStatusIn r .openPr ≠ some .running ∧ stepStatusIn r .mergePr ≠ some .running ∧
        stepStatusIn r .postDeployCheck ≠ some .running ∧
        stepStatusIn r .finalize ≠ some .running) ∧
      pubTrace (RunService.run_plan env runId issueUrl repo ⟨"reject", n⟩ dm)
        = [.stateChanged, .stateChanged, .stateChanged, .stateChanged, .stateChanged,
           .stateChanged, .stateChanged, .stateChanged, .stateChanged, .stateChanged,
           .stateChanged, .stateChanged, .stateChanged, .stateChanged,
           .clarificationRequested, .stateChanged, .clarificationResolved,
           .stateChanged, .stateChanged, .finished]) ∧
    (∀ (env : Env) (runId issueUrl repo : String) (n1 n2 : Option String),
      stepStatusIn (RunService.run_plan env runId issueUrl repo ⟨"approve", n1⟩ ⟨"reject", n2⟩).run
        .mergePr = some .rejected ∧
      (RunService.run_plan env runId issueUrl repo ⟨"approve", n1⟩ ⟨"reject", n2⟩).run.status
        = .failed ∧
      stepStatusIn (RunService.run_plan env runId issueUrl repo ⟨"approve", n1⟩ ⟨"reject", n2⟩).run
        .postDeployCheck = some .cancelled ∧
      stepStatusIn (RunService.run_plan env runId issueUrl repo ⟨"approve", n1⟩ ⟨"reject", n2⟩).run
        .finalize = some .cancelled ∧
      (∀ r ∈ (RunService.run_plan env runId issueUrl repo ⟨"approve", n1⟩ ⟨"reject", n2⟩).trace,
        stepStatusIn r .postDeployCheck ≠ some .running ∧
        stepStatusIn r .finalize ≠ some .running) ∧
      pubTrace (RunService.run_plan env runId issueUrl repo ⟨"approve", n1⟩ ⟨"reject", n2⟩)
        = [.stateChanged, .stateChanged, .stateChanged, .stateChanged, .stateChanged,
           .stateChanged, .stateChanged, .stateChanged, .stateChanged, .stateChanged,
           .stateChanged, .stateChanged, .stateChanged, .stateChanged,
           .clarificationRequested, .stateChanged, .clarificationResolved,
           .stateChanged, .stateChanged, .stateChanged, .stateChanged, .stateChanged,
           .stateChanged, .clarificationRequested, .stateChanged, .clarificationResolved,
           .stateChanged, .stateChanged, .finished]) := by
  constructor
  · intro env runId issueUrl repo n dm
    simp [RunService.run_plan, startState, processSteps, execOrdinary, execGate,
      proposeFixApprove, initRun, initPlan, stepsGates, initGithubData, updatePlan,
      cancelAfter, cancelLoop, stepStatusIn, pubTrace, logs, Event.isLog, Event.etype]
  · intro env runId issueUrl repo n1 n2
    rcases env with ⟨f, pr, pp, an, br, gf, files, prk, cm⟩
    cases gf <;>
      simp [RunService.run_plan, startState, processSteps, execOrdinary, execGate,
        proposeFixApprove, initRun, initPlan, stepsGates, initGithubData, updatePlan,
        cancelAfter, cancelLoop, stepStatusIn, pubTrace, logs, Event.isLog, Event.etype]

/-- C8 counterexample: right after creation (an observable state: start
returns before the executor task first runs, and the record is served
by GET /runs) the run has zero steps in running or waiting while all
ten steps are still pending, so "exactly one step is running or waiting,
or else every step has a terminal status" fails at a reachable state. -/
theorem c8_counterexample :
    ((RunService.run_plan envAllOk "r1" "u" "p" ⟨"approve", none⟩ ⟨"approve", none⟩).trace.any
      (fun r => decide (activeCount r.plan = 0 ∧ allTerminal r.plan = false))) = true := by
  decide

set_option maxHeartbeats 1600000 in
/-- C8 as amended: at every observable state of a run's lifecycle, at
most one step has status running or waiting (the "exactly one or all
terminal" form of the claim fails at the initial all-pending state and
at the states between one step finishing and the next starting).  The
decisions are the validated ones RunService.approve can store. -/
theorem c8_at_most_one_active (env : Env) (dpd dmd : String) (n1 n2 : Option String)
    (runId issueUrl repo : String)
    (hp : dpd = "approve" ∨ dpd = "reject") (hm : dmd = "approve" ∨ dmd = "reject") :
    ((RunService.run_plan env runId issueUrl repo ⟨dpd, n1⟩ ⟨dmd, n2⟩).trace.all
      (fun r => decide (activeCount r.plan ≤ 1))) = true := by
  rcases env with ⟨f, pr, pp, an, br, gf, files, prk, cm⟩
  rcases hp with h | h <;> subst h
  · rcases hm with h2 | h2 <;> subst h2 <;> cases gf <;>
      simp [RunService.run_plan, startState, processSteps, execOrdinary, execGate,
        proposeFixApprove, initRun, initPlan, stepsGates, initGithubData, updatePlan,
        cancelAfter, cancelLoop, activeCount]
  · simp [RunService.run_plan, startState, processSteps, execOrdinary, execGate,
      proposeFixApprove, initRun, initPlan, stepsGates, initGithubData, updatePlan,
      cancelAfter, cancelLoop, activeCount]

set_option maxHeartbeats 1600000 in
/-- C8 witness: the amended invariant holds on the concrete
all-approvals run in the all-success environment. -/
theorem c8_at_most_one_active_witness :
    ("approve" = "approve" ∨ "approve" = "reject") ∧
    ((RunService.run_plan envAllOk "r1" "u" "p" ⟨"approve", none⟩ ⟨"approve", none⟩).trace.all
      (fun r => decide (activeCount r.plan ≤ 1))) = true :=
  ⟨Or.inl rfl, c8_at_most_one_active envAllOk "approve" "approve" none none "r1" "u" "p"
    (Or.inl rfl) (Or.inl rfl)⟩

/-- C3 counterexample: on the fresh run r1 a first decision for gate
merge-pr succeeds, and a second decision for the same (runId, gate)
pair also succeeds (no DuplicateDecision error exists in the code),
overwrites the stored first decision, and publishes a second
approvalRecorded event for that gate. -/
theorem c3_counterexample :
    (RunService.approve d0 "r1" "merge-pr" "approve" none).2 = none ∧
    (RunService.approve (RunService.approve d0 "r1" "merge-pr" "approve" none).1
        "r1" "merge-pr" "reject" none).2 = none ∧
    (dictGet (RunService.approve (RunService.approve d0 "r1" "merge-pr" "approve" none).1
        "r1" "merge-pr" "reject" none).1.runs "r1").map
      (fun r => dictGet r.approvals .mergePr) = some (some ⟨"reject", none⟩) ∧
    dictGet (RunService.approve (RunService.approve d0 "r1" "merge-pr" "approve" none).1
        "r1" "merge-pr" "reject" none).1.queues "r1"
      = some [Event.stateChanged .created none,
              Event.approvalRecorded .mergePr "approve" none,
              Event.approvalRecorded .mergePr "reject" none] := by
  decide

/-- C3 as amended: RunService.approve never checks for an existing
decision: every call with an existing run, a valid gate name and a
valid decision succeeds, stores the given decision under the gate
(overwriting any earlier one, since dictSet replaces the binding), and
publishes one more approvalRecorded event on the run's queue.  Repeated
decisions for the same (runId, gate) pair therefore yield repeated
approvalRecorded events and last-writer-wins storage, with no
DuplicateDecision error. -/
theorem c3_second_decision_overwrites (d : Directory) (runId gate decision : String)
    (g : StepName) (note : Option String) (run : Run) (evs : List Event)
    (hrun : dictGet d.runs runId = some run)
    (hgate : parseGate gate = some g)
    (hdec : decision = "approve" ∨ decision = "reject")
    (hq : dictGet d.queues runId = some evs) :
    (RunService.approve d runId gate decision note).2 = none ∧
    dictGet (RunService.approve d runId gate decision note).1.runs runId
      = some { run with approvals := dictSet run.approvals g ⟨decision, note⟩ } ∧
    dictGet (RunService.approve d runId gate decision note).1.queues runId
      = some (evs ++ [.approvalRecorded g decision note]) := by
  rcases hdec with h | h <;> subst h <;>
    simp [RunService.approve, hrun, hgate, hq, dictGet_dictSet_self]

/-- C3 witness: the amended behaviour at the fresh directory d0. -/
theorem c3_second_decision_overwrites_witness :
    dictGet d0.runs "r1" = some runA ∧
    (RunService.approve d0 "r1" "merge-pr" "approve" (some "ok")).2 = none ∧
    dictGet (RunService.approve d0 "r1" "merge-pr" "approve" (some "ok")).1.queues "r1"
      = some ([Event.stateChanged .created none]
          ++ [Event.approvalRecorded .mergePr "approve" (some "ok")]) :=
  ⟨rfl,
   (c3_second_decision_overwrites d0 "r1" "merge-pr" "approve" .mergePr (some "ok") runA
     [Event.stateChanged .created none] rfl rfl (Or.inl rfl) rfl).1,
   (c3_second_decision_overwrites d0 "r1" "merge-pr" "approve" .mergePr (some "ok") runA
     [Event.stateChanged .created none] rfl rfl (Or.inl rfl) rfl).2.2⟩

/-- C5 counterexample: on the fresh run r1 the merge-pr step is still
pending (not waiting), yet a decision for the merge-pr gate is accepted
(no UnknownGate error) and silently buffered into run["approvals"],
where the executor will consume it when it reaches the gate. -/
theorem c5_counterexample :
    stepStatusIn runA .mergePr = some .pending ∧
    (RunService.approve d0 "r1" "merge-pr" "approve" none).2 = none ∧
    (dictGet (RunService.approve d0 "r1" "merge-pr" "approve" none).1.runs "r1").map
      (fun r => dictGet r.approvals .mergePr) = some (some ⟨"approve", none⟩) := by
  decide

/-- C5 as amended: RunService.approve validates only the gate name,
never the gate's current step status.  A gate string outside the two
known gate names fails with ValueError whatever the run's state, and a
decision for a known gate name on an existing run is always accepted
and buffered into run["approvals"] — also when that gate is not
currently waiting — to be consumed when the executor reaches the
gate. -/
theorem c5_gate_name_validation_only :
    (∀ (d : Directory) (runId gate decision : String) (note : Option String) (run : Run),
      dictGet d.runs runId = some run → parseGate gate = none →
      RunService.approve d runId gate decision note
        = (d, some (.valueError ("Unknown gate: " ++ gate)))) ∧
    (∀ (d : Directory) (runId gate decision : String) (g : StepName)
      (note : Option String) (run : Run),
      dictGet d.runs runId = some run → parseGate gate = some g →
      (decision = "approve" ∨ decision = "reject") →
      (RunService.approve d runId gate decision note).2 = none ∧
      (dictGet (RunService.approve d runId gate decision note).1.runs runId).map
        (fun r => dictGet r.approvals g) = some (some ⟨decision, note⟩)) := by
  constructor
  · intro d runId gate decision note run hrun hgate
    simp [RunService.approve, hrun, hgate]
  · intro d runId gate decision g note run hrun hgate hdec
    rcases hdec with h | h <;> subst h <;>
      simp [RunService.approve, hrun, hgate, dictGet_dictSet_self] <;>
      cases hqq : dictGet d.queues runId <;>
      simp [hqq, dictGet_dictSet_self]

/-- C5 witness: a bogus gate name is rejected on the fresh run, and a
decision for the not-yet-waiting merge-pr gate is accepted there. -/
theorem c5_gate_name_validation_only_witness :
    dictGet d0.runs "r1" = some runA ∧ parseGate "deploy" = none ∧
    RunService.approve d0 "r1" "deploy" "approve" none
      = (d0, some (.valueError ("Unknown gate: " ++ "deploy"))) ∧
    (RunService.approve d0 "r1" "merge-pr" "approve" none).2 = none :=
  ⟨rfl, rfl,
   c5_gate_name_validation_only.1 d0 "r1" "deploy" "approve" none runA rfl rfl,
   (c5_gate_name_validation_only.2 d0 "r1" "merge-pr" "approve" .mergePr none runA
     rfl rfl (Or.inl rfl)).1⟩

/-- C6 counterexample: with the run r1 present, a decision outside
approve/reject does not produce a 400-equivalent response: the
ValueError raised by RunService.approve escapes the handler uncaught
(FastAPI renders uncaught exceptions as a 500 response), so the result
is not an HTTPException with status 400. -/
theorem c6_counterexample :
    Main.approve_run d0 "r1" (some "propose-fix") (some "maybe") none
      = (d0, .uncaughtValueError ("Unknown decision: " ++ "maybe")) ∧
    ApiResult.isBadRequest
      (Main.approve_run d0 "r1" (some "propose-fix") (some "maybe") none).2 = false := by
  decide

/-- C6 as amended: approve_run returns the 400-equivalent HTTPException
exactly when gate or decision is missing from the body (this check
precedes the run lookup); with both present it returns the
404-equivalent HTTPException when the run is unknown; with an existing
run, a gate name outside the two gates or a decision outside
approve/reject raises a ValueError that escapes the handler uncaught (a
500-equivalent outcome, not a 400); every error path leaves the
directory unchanged; otherwise the call succeeds with the
status-success payload. -/
theorem c6_boundary_validation :
    (∀ (d : Directory) (runId : String) (dec note : Option String),
      Main.approve_run d runId none dec note
        = (d, .httpError 400 "gate and decision are required")) ∧
    (∀ (d : Directory) (runId g : String) (note : Option String),
      Main.approve_run d runId (some g) none note
        = (d, .httpError 400 "gate and decision are required")) ∧
    (∀ (d : Directory) (runId g dec : String) (note : Option String),
      dictGet d.runs runId = none →
      Main.approve_run d runId (some g) (some dec) note
        = (d, .httpError 404 "Run not found")) ∧
    (∀ (d : Directory) (runId g dec : String) (note : Option String) (run : Run),
      dictGet d.runs runId = some run → parseGate g = none →
      Main.approve_run d runId (some g) (some dec) note
        = (d, .uncaughtValueError ("Unknown gate: " ++ g))) ∧
    (∀ (d : Directory) (runId g dec : String) (gn : StepName) (note : Option String)
      (run : Run),
      dictGet d.runs runId = some run → parseGate g = some gn →
      ¬(dec = "approve" ∨ dec = "reject") →
      Main.approve_run d runId (some g) (some dec) note
        = (d, .uncaughtValueError ("Unknown decision: " ++ dec))) ∧
    (∀ (d : Directory) (runId g dec : String) (gn : StepName) (note : Option String)
      (run : Run),
      dictGet d.runs runId = some run → parseGate g = some gn →
      (dec = "approve" ∨ dec = "reject") →
      (Main.approve_run d runId (some g) (some dec) note).2 = .ok "success") := by
  refine ⟨?_, ?_, ?_, ?_, ?_, ?_⟩
  · intro d runId dec note
    cases dec <;> rfl
  · intro d runId g note
    rfl
  · intro d runId g dec note h
    simp [Main.approve_run, h]
  · intro d runId g dec note run hrun hgate
    simp [Main.approve_run, RunService.approve, hrun, hgate]
  · intro d runId g dec gn note run hrun hgate hdec
    simp [Main.approve_run, RunService.approve, hrun, hgate, hdec]
  · intro d runId g dec gn note run hrun hgate hdec
    rcases hdec with h | h <;> subst h <;>
      simp [Main.approve_run, RunService.approve, hrun, hgate] <;>
      cases hqq : dictGet d.queues runId <;>
      simp [hqq]

/-- C6 witness: the 404 path for an unknown run and the success path
for a valid decision on the fresh run r1. -/
theorem c6_boundary_validation_witness :
    dictGet d0.runs "nonexistent" = none ∧
    Main.approve_run d0 "nonexistent" (some "merge-pr") (some "approve") none
      = (d0, .httpError 404 "Run not found") ∧
    (Main.approve_run d0 "r1" (some "merge-pr") (some "approve") (some "ok")).2
      = .ok "success" :=
  ⟨rfl,
   c6_boundary_validation.2.2.1 d0 "nonexistent" "merge-pr" "approve" none rfl,
   c6_boundary_validation.2.2.2.2.2 d0 "r1" "merge-pr" "approve" .mergePr (some "ok") runA
     rfl rfl (Or.inl rfl)⟩

/-- C10: a successful RunService.approve call changes only the
approvals mapping of the addressed run (storing the decision and note
under the gate) and appends exactly one approvalRecorded event to that
run's queue; the rest of the run record (its status, plan with every
step status, github data, and identity fields) is the untouched
original record, and every other run and queue in the directory is
unchanged. -/
theorem c10_approve_frame (d : Directory) (runId gate decision : String)
    (g : StepName) (note : Option String) (run : Run) (evs : List Event)
    (hrun : dictGet d.runs runId = some run)
    (hgate : parseGate gate = some g)
    (hdec : decision = "approve" ∨ decision = "reject")
    (hq : dictGet d.queues runId = some evs) :
    (RunService.approve d runId gate decision note).2 = none ∧
    dictGet (RunService.approve d runId gate decision note).1.runs runId
      = some { run with approvals := dictSet run.approvals g ⟨decision, note⟩ } ∧
    (∀ rid', rid' ≠ runId →
      dictGet (RunService.approve d runId gate decision note).1.runs rid'
        = dictGet d.runs rid') ∧
    dictGet (RunService.approve d runId gate decision note).1.queues runId
      = some (evs ++ [.approvalRecorded g decision note]) ∧
    (∀ rid', rid' ≠ runId →
      dictGet (RunService.approve d runId gate decision note).1.queues rid'
        = dictGet d.queues rid') := by
  rcases hdec with h | h <;> subst h <;>
    refine ⟨?_, ?_, ?_, ?_, ?_⟩ <;>
    simp [RunService.approve, hrun, hgate, hq, dictGet_dictSet_self] <;>
    intro rid' hne <;>
    simp [RunService.approve, hrun, hgate, hq,
      dictGet_dictSet_ne _ _ _ _ (fun hh => hne hh.symm)]

/-- C10 witness: the frame property at the fresh directory d0. -/
theorem c10_approve_frame_witness :
    dictGet d0.runs "r1" = some runA ∧
    (RunService.approve d0 "r1" "propose-fix" "approve" (some "ok")).2 = none ∧
    dictGet (RunService.approve d0 "r1" "propose-fix" "approve" (some "ok")).1.runs "r1"
      = some { runA with approvals := dictSet runA.approvals .proposeFix ⟨"approve", some "ok"⟩ } ∧
    dictGet (RunService.approve d0 "r1" "propose-fix" "approve" (some "ok")).1.queues "r1"
      = some ([Event.stateChanged .created none]
          ++ [Event.approvalRecorded .proposeFix "approve" (some "ok")]) :=
  ⟨rfl,
   (c10_approve_frame d0 "r1" "propose-fix" "approve" .proposeFix (some "ok") runA
     [Event.stateChanged .created none] rfl rfl (Or.inl rfl) rfl).1,
   (c10_approve_frame d0 "r1" "propose-fix" "approve" .proposeFix (some "ok") runA
     [Event.stateChanged .created none] rfl rfl (Or.inl rfl) rfl).2.1,
   (c10_approve_frame d0 "r1" "propose-fix" "approve" .proposeFix (some "ok") runA
     [Event.stateChanged .created none] rfl rfl (Or.inl rfl) rfl).2.2.2.1⟩
